import Mathlib

/-!
Verification of the Bible MCP Cloudflare Worker (`src/index.ts`).

We shallowly embed the worker's protocol-dispatch and response-shaping layer:
JavaScript strings are Lean `String`s (sequences of characters), JS string
operations (`trim`, `slice`, `toUpperCase`) are modelled explicitly, the
dynamic content-node values flowing through `extractTextFromContent` are an
inductive type covering the shapes the code distinguishes, and the remote
provider (reached through `BibleAPIClient.makeRequest` / `fetch`) is a
`World` of per-endpoint response functions.  Handlers additionally return the
list of provider calls they issued, so that fetch-count properties are
statable.
-/

namespace BibleMCP

/-- A single-quote character, written via its code point (used in the
handler's user-facing messages). -/
def sq : String := "\x27"

/-- JS whitespace test used by `String.prototype.trim` (the ASCII core:
space, tab, line feed, carriage return). -/
def jsWhitespace (c : Char) : Bool :=
  c = ' ' || c = '\t' || c = '\n' || c = '\r'

/-- Drop whitespace from both ends of a character list. -/
def trimChars (l : List Char) : List Char :=
  ((l.dropWhile jsWhitespace).reverse.dropWhile jsWhitespace).reverse

/-- Model of JS `String.prototype.trim`. -/
def jsTrim (s : String) : String := ⟨trimChars s.data⟩

/-- Model of JS `String.prototype.slice(0, n)`. -/
def jsSlice (s : String) (n : Nat) : String := ⟨s.data.take n⟩

/-- Model of JS `String.prototype.toUpperCase` (ASCII range, as used for
book codes such as `gen` → `GEN`). -/
def jsToUpper (s : String) : String := s.toUpper

theorem jsTrim_length_le (s : String) : (jsTrim s).length ≤ s.length := by
  show (trimChars s.data).length ≤ s.data.length
  unfold trimChars
  calc ((s.data.dropWhile jsWhitespace).reverse.dropWhile jsWhitespace).reverse.length
      = ((s.data.dropWhile jsWhitespace).reverse.dropWhile jsWhitespace).length :=
        List.length_reverse _
    _ ≤ (s.data.dropWhile jsWhitespace).reverse.length :=
        (List.dropWhile_sublist _).length_le
    _ = (s.data.dropWhile jsWhitespace).length := List.length_reverse _
    _ ≤ s.data.length := (List.dropWhile_sublist _).length_le

theorem jsSlice_length_le (s : String) (n : Nat) : (jsSlice s n).length ≤ n := by
  show (s.data.take n).length ≤ n
  simp

theorem string_append_assoc (a b c : String) : (a ++ b) ++ c = a ++ (b ++ c) := by
  apply String.ext
  simp [String.data_append]

/-- Concatenation of a list of strings in order (`Array.prototype.join("")`). -/
def concatAll : List String → String
  | [] => ""
  | x :: xs => x ++ concatAll xs

theorem string_append_empty (s : String) : s ++ "" = s := by
  apply String.ext
  simp [String.data_append]

theorem concatAll_append (a b : List String) :
    concatAll (a ++ b) = concatAll a ++ concatAll b := by
  induction a with
  | nil =>
      show concatAll b = "" ++ concatAll b
      apply String.ext
      simp [String.data_append]
  | cons x xs ih =>
      show x ++ concatAll (xs ++ b) = (x ++ concatAll xs) ++ concatAll b
      rw [ih, string_append_assoc]

/-!
## Nested-content flattener (`extractTextFromContent` / inner `extractText`)

The JS code receives dynamically-typed content nodes.  A node value can be
an object (with optional `type`, `text`, `items` fields), an array, or a
non-object primitive.  `JItem` covers exactly these shapes.
-/

/-- A dynamic content-node value as seen by `extractText`. -/
inductive JItem where
  /-- A JS object with optional `type`, `text` and `items` fields. -/
  | obj (type0 : Option String) (text0 : Option String) (items0 : Option (List JItem))
  /-- A JS array of nodes. -/
  | arr (elems : List JItem)
  /-- A non-object, non-array value (string, number, null, undefined, ...). -/
  | prim

mutual

/-- Inner function `extractText` from `src/index.ts`.  The JS test
`typeof item === 'object' && item !== null` is true for plain objects AND
for arrays; an array has neither a `type` nor an `items` property, so it
falls through the object branch to `return ""` — the later
`else if (Array.isArray(item))` branch is unreachable.  Hence `.arr` maps
to the empty string here. -/
def extractText : JItem → String
  | .obj type0 text0 items0 =>
      if type0 = some "text" then (text0.getD "")
      else
        match items0 with
        | some l => extractTextList l
        | none => ""
  | .arr _ => ""
  | .prim => ""

/-- Model of `item.items.map(extractText).join("")`, written as direct
recursion. -/
def extractTextList : List JItem → String
  | [] => ""
  | x :: xs => extractText x ++ extractTextList xs

end

/-- Function `extractTextFromContent`: map `extractText` over the top-level
items, join, and trim the surrounding whitespace. -/
def extractTextFromContent (contentItems : List JItem) : String :=
  jsTrim (extractTextList contentItems)

theorem extractTextList_eq_concat_map (l : List JItem) :
    extractTextList l = concatAll (l.map extractText) := by
  induction l with
  | nil => rfl
  | cons x xs ih => simp only [extractTextList, List.map_cons, concatAll, ih]

mutual

/-- The left-to-right sequence of text-leaf contents reached by the
flattener: a text leaf contributes its text, a composite contributes its
children's leaves in order, anything else contributes none. -/
def leafTexts : JItem → List String
  | .obj type0 text0 items0 =>
      if type0 = some "text" then [text0.getD ""]
      else
        match items0 with
        | some l => leafTextsList l
        | none => []
  | .arr _ => []
  | .prim => []

/-- Leaf texts of a list of nodes, concatenated in order. -/
def leafTextsList : List JItem → List String
  | [] => []
  | x :: xs => leafTexts x ++ leafTextsList xs

end

theorem extract_eq_concat_both :
    (∀ t : JItem, extractText t = concatAll (leafTexts t)) ∧
    (∀ l : List JItem, extractTextList l = concatAll (leafTextsList l)) := by
  refine extractText.mutual_induct
    (fun t => extractText t = concatAll (leafTexts t))
    (fun l => extractTextList l = concatAll (leafTextsList l))
    ?_ ?_ ?_ ?_ ?_ ?_ ?_
  · intro text0 items0
    simp only [extractText, leafTexts, if_true, concatAll]
    exact (string_append_empty _).symm
  · intro type0 text0 h l ih
    simp only [extractText, leafTexts, h, if_false]
    exact ih
  · intro type0 text0 h
    simp only [extractText, leafTexts, h, if_false, concatAll]
  · intro elems
    simp only [extractText, leafTexts, concatAll]
  · simp only [extractText, leafTexts, concatAll]
  · simp only [extractTextList, leafTextsList, concatAll]
  · intro x xs ih1 ih2
    simp only [extractTextList, leafTextsList, concatAll_append, ih1, ih2]

theorem extractText_eq_concat_leafTexts (t : JItem) :
    extractText t = concatAll (leafTexts t) :=
  extract_eq_concat_both.1 t

theorem extractTextList_eq_concat_leafTextsList (l : List JItem) :
    extractTextList l = concatAll (leafTextsList l) :=
  extract_eq_concat_both.2 l

/-!
## Provider data model and fetch client

The remote provider (`api.scripture.api.bible`) is reached through
`BibleAPIClient.makeRequest`, which wraps `fetch`: a non-ok HTTP status
raises `Bible API request failed: <status> <statusText>`, an ok status
yields the parsed JSON body (its optional `data` field is what the
handlers read).  We model the provider as a `World` assigning an HTTP
response to every possible request of each endpoint.
-/

/-- A search hit (`data.verses[i]`): a reference heading plus verse text. -/
structure SearchVerse where
  reference : String
  text : String
deriving DecidableEq

/-- Search payload `data`: an optional verse list and a total count. -/
structure SearchData where
  verses : Option (List SearchVerse)
  total : Int
deriving DecidableEq

/-- Verse payload `data`: a reference plus flat text content. -/
structure VerseData where
  reference : String
  content : String
deriving DecidableEq

/-- The `content` field of a passage payload: a flat string
(`content-type=text`), a tree of content nodes (`content-type=json`), or
absent. -/
inductive PassageContent where
  | str (s : String)
  | items (l : List JItem)
  | absent

/-- Passage payload `data`: a reference plus content. -/
structure PassageData where
  reference : String
  content : PassageContent

/-- A chapter entry of a book's chapter list (`data[i]`). -/
structure ChapterInfo where
  id : String
  number : String
  reference : String
deriving DecidableEq

/-- A book entry of the book list (`data[i]`). -/
structure BookInfo where
  id : String
  name : String
  abbreviation : String
deriving DecidableEq

/-- An HTTP response from the provider, with the parsed optional `data`
field of its JSON body. -/
structure HTTPResp (α : Type) where
  ok : Bool
  status : Nat
  statusText : String
  body : α

/-- The error message thrown by `makeRequest` on a non-ok response. -/
def bibleAPIErrorMsg (status : Nat) (statusText : String) : String :=
  "Bible API request failed: " ++ toString status ++ " " ++ statusText

/-- Outcome of `makeRequest`: the body on an ok response, the thrown error
message otherwise. -/
def makeRequestResult {α : Type} (r : HTTPResp α) : Except String α :=
  if r.ok then Except.ok r.body
  else Except.error (bibleAPIErrorMsg r.status r.statusText)

/-- The remote provider, as a response for every request of each endpoint.
Arguments mirror the parameters the client varies per call: the chapter
list takes the book id, verse and passage fetches take the resource id,
the `include-verse-numbers` flag value and (for passages) the
`content-type` value, search takes the query and the limit. -/
structure World where
  booksResp : HTTPResp (Option (List BookInfo))
  chaptersResp : String → HTTPResp (Option (List ChapterInfo))
  verseResp : String → String → HTTPResp (Option VerseData)
  passageResp : String → String → String → HTTPResp (Option PassageData)
  searchResp : String → Int → HTTPResp (Option SearchData)

/-- A provider call issued by a handler, recorded for fetch-count
properties. -/
inductive ProviderCall where
  | getBooks
  | getChapters (bookId : String)
  | getVerse (verseId : String) (includeVerseNumbers : String)
  | getPassage (passageId : String) (includeVerseNumbers : String) (contentType : String)
  | search (query : String) (limit : Int)
deriving DecidableEq

/-!
## Tool results and handlers
-/

/-- One block of a tool result's `content` array. -/
structure ContentBlock where
  type : String
  text : String
deriving DecidableEq

/-- A `CallToolResult`: content blocks plus the optional `isError` flag. -/
structure CallToolResult where
  content : List ContentBlock
  isError : Option Bool
deriving DecidableEq

/-- Function `toolResult`: a normal (non-error) result. -/
def toolResult (text : String) : CallToolResult :=
  ⟨[⟨"text", text⟩], none⟩

/-- Function `toolError` (with its `isError = true` default). -/
def toolError (text : String) : CallToolResult :=
  ⟨[⟨"text", text⟩], some true⟩

/-- The `arguments` object of a `tools/call`, with every field the two
handlers read.  Absent fields are `none`. -/
structure ToolArgs where
  action : Option String := none
  query : Option String := none
  verse_id : Option String := none
  passage_id : Option String := none
  book_id : Option String := none
  chapter : Option Int := none
  limit : Option Int := none
  response_format : Option String := none

/-- JS `x || dflt` for an optional string (absent or empty falls back). -/
def jsOrString (o : Option String) (dflt : String) : String :=
  if o.getD "" = "" then dflt else o.getD ""

/-- JS template interpolation of a possibly-undefined string. -/
def showAction : Option String → String
  | some s => s
  | none => "undefined"

/-- The response-format resolution both handlers perform:
`(args.response_format || "concise") === "detailed"`. -/
def fmtDetailed (rf : Option String) : Bool :=
  jsOrString rf "concise" == "detailed"

/-- The `content-type` request parameter chosen for passage/chapter
fetches: `isDetailed ? "json" : "text"`. -/
def contentTypeFor (isDetailed : Bool) : String :=
  if isDetailed then "json" else "text"

/-- Constant `MAX_VERSE_LENGTH_CONCISE`. -/
def MAX_VERSE_LENGTH_CONCISE : Nat := 100

/-- Function `truncateText` from `src/index.ts`. -/
def truncateText (text : String) (maxLen : Nat) : String :=
  if text.length ≤ maxLen then text
  else jsTrim (jsSlice text maxLen) ++ "..."

/-- One rendered search result: reference heading, then the verse text,
truncated to 100 characters when concise. -/
def renderSearchVerse (isDetailed : Bool) (v : SearchVerse) : String :=
  "**" ++ v.reference ++ "**\n" ++
    (if isDetailed then v.text else truncateText v.text MAX_VERSE_LENGTH_CONCISE) ++
    "\n\n"

/-- JS coercion `passageData.content || []` in the json path of the
`passage` action.  A non-empty string is truthy and is then iterated by
`extractTextFromContent`; each character of a string is itself a
(non-object) string value, contributing nothing. -/
def contentOrEmpty : PassageContent → List JItem
  | .items l => l
  | .absent => []
  | .str s => if s = "" then [] else s.data.map (fun _ => JItem.prim)

/-- JS coercion in the json path of the `chapter` action:
`Array.isArray(contentItems) ? contentItems : [contentItems]` applied to
`passageData.content || []`.  A non-empty string is truthy but not an
array, so it is wrapped into a one-element list; the string element is a
non-object primitive for `extractText`. -/
def chapterContentItems : PassageContent → List JItem
  | .items l => l
  | .absent => []
  | .str s => if s = "" then [] else [JItem.prim]

/-- JS `passageData.content.trim()` in the text path of the `passage`
action: calling `trim` on a non-string raises, and the raised message is
caught by the handler's catch-all. -/
def contentTrimJS : PassageContent → Except String String
  | .str s => Except.ok (jsTrim s)
  | _ => Except.error "passageData.content.trim is not a function"

/-- The clamp applied to the `limit` argument of the `search` action:
`Math.min(Math.max(args.limit ?? 10, 1), 200)`. -/
def clampLimit (limit0 : Option Int) : Int :=
  min (max (limit0.getD 10) 1) 200

/-- The number of search results rendered:
`isDetailed ? verses.length : Math.min(5, verses.length)`. -/
def searchMaxResults (isDetailed : Bool) (count : Nat) : Nat :=
  if isDetailed then count else min 5 count

/-- The heading line of a search response. -/
def searchHeader (isDetailed : Bool) (total : Int) (query : String)
    (count maxResults : Nat) : String :=
  if isDetailed then
    "Found " ++ toString total ++ " verses for " ++ sq ++ query ++ sq ++
      " (showing " ++ toString count ++ "):\n\n"
  else
    "Found " ++ toString total ++ " verses for " ++ sq ++ query ++ sq ++
      " (top " ++ toString maxResults ++ "):\n\n"

/-- Function `handleBibleContent`.  Returns the `CallToolResult` together
with the ordered list of provider calls issued. -/
def handleBibleContent (args : ToolArgs) (w : World) :
    CallToolResult × List ProviderCall :=
  let isDetailed := fmtDetailed args.response_format
  match args.action with
  | some "search" =>
      if args.query.getD "" = "" then (toolError "search action requires query", [])
      else
        let query := args.query.getD ""
        let limit := clampLimit args.limit
        let call := ProviderCall.search query limit
        match makeRequestResult (w.searchResp query limit) with
        | .error e => (toolError ("Error: " ++ e), [call])
        | .ok none =>
            (toolResult ("No verses found for query: " ++ sq ++ query ++ sq), [call])
        | .ok (some d) =>
            match d.verses with
            | none =>
                (toolResult ("No verses found for query: " ++ sq ++ query ++ sq), [call])
            | some verses =>
                let maxResults := searchMaxResults isDetailed verses.length
                let response :=
                  searchHeader isDetailed d.total query verses.length maxResults ++
                    concatAll ((verses.take maxResults).map (renderSearchVerse isDetailed))
                (toolResult (jsTrim response), [call])
  | some "verse" =>
      if args.verse_id.getD "" = "" then (toolError "verse action requires verse_id", [])
      else
        let vid := args.verse_id.getD ""
        let ivn := toString isDetailed
        let call := ProviderCall.getVerse vid ivn
        match makeRequestResult (w.verseResp vid ivn) with
        | .error e => (toolError ("Error: " ++ e), [call])
        | .ok none => (toolResult ("Verse not found: " ++ vid), [call])
        | .ok (some vd) =>
            (toolResult ("**" ++ vd.reference ++ "**\n" ++ jsTrim vd.content), [call])
  | some "passage" =>
      if args.passage_id.getD "" = "" then (toolError "passage action requires passage_id", [])
      else
        let pid := args.passage_id.getD ""
        let ivn := toString isDetailed
        let contentType := contentTypeFor isDetailed
        let call := ProviderCall.getPassage pid ivn contentType
        match makeRequestResult (w.passageResp pid ivn contentType) with
        | .error e => (toolError ("Error: " ++ e), [call])
        | .ok none => (toolResult ("Passage not found: " ++ pid), [call])
        | .ok (some pd) =>
            if contentType = "text" then
              match contentTrimJS pd.content with
              | .error e => (toolError ("Error: " ++ e), [call])
              | .ok c => (toolResult ("**" ++ pd.reference ++ "**\n" ++ c), [call])
            else
              let c := extractTextFromContent (contentOrEmpty pd.content)
              (toolResult ("**" ++ pd.reference ++ "**\n" ++ c), [call])
  | some "chapter" =>
      if args.book_id.getD "" = "" ∨ args.chapter = none then
        (toolError "chapter action requires book_id and chapter", [])
      else
        let bookId := jsToUpper (args.book_id.getD "")
        let n := args.chapter.getD 0
        let chCall := ProviderCall.getChapters bookId
        match makeRequestResult (w.chaptersResp bookId) with
        | .error e => (toolError ("Error: " ++ e), [chCall])
        | .ok data0 =>
            let chList := data0.getD []
            match chList.find? (fun ch => ch.number = toString n) with
            | none =>
                (toolResult ("Chapter " ++ toString n ++ " not found in book " ++ bookId),
                  [chCall])
            | some ch =>
                let ivn := toString isDetailed
                let contentType := contentTypeFor isDetailed
                let pCall := ProviderCall.getPassage ch.id ivn contentType
                match makeRequestResult (w.passageResp ch.id ivn contentType) with
                | .error e => (toolError ("Error: " ++ e), [chCall, pCall])
                | .ok none =>
                    (toolResult ("Chapter content not found: " ++ bookId ++ " " ++ toString n),
                      [chCall, pCall])
                | .ok (some pd) =>
                    let c :=
                      if contentType = "text" then
                        match pd.content with
                        | .str s => jsTrim s
                        | _ => ""
                      else extractTextFromContent (chapterContentItems pd.content)
                    (toolResult ("**" ++ pd.reference ++ "**\n" ++ c), [chCall, pCall])
  | a =>
      (toolError ("Unknown action: " ++ showAction a ++
        ". Use search, verse, passage, or chapter."), [])

/-- One rendered book line of `list_books`. -/
def renderBook (isDetailed : Bool) (b : BookInfo) : String :=
  if isDetailed then
    "• **" ++ b.name ++ "** (" ++ b.abbreviation ++ ") - ID: " ++ b.id ++ "\n"
  else
    "• **" ++ b.name ++ "** (" ++ b.abbreviation ++ ")\n"

/-- One rendered chapter line of `list_chapters`; the `intro` marker is
skipped. -/
def renderChapter (isDetailed : Bool) (ch : ChapterInfo) : String :=
  if ch.number = "intro" then ""
  else if isDetailed then
    "• Chapter " ++ ch.number ++ " - " ++ ch.reference ++ "\n"
  else
    "• Chapter " ++ ch.number ++ "\n"

/-- Function `handleBibleReference`. -/
def handleBibleReference (args : ToolArgs) (w : World) :
    CallToolResult × List ProviderCall :=
  let isDetailed := fmtDetailed args.response_format
  match args.action with
  | some "list_books" =>
      let call := ProviderCall.getBooks
      match makeRequestResult w.booksResp with
      | .error e => (toolError ("Error: " ++ e), [call])
      | .ok none => (toolResult "No books found", [call])
      | .ok (some books) =>
          let response := "**Bible Books:**\n\n" ++
            concatAll (books.map (renderBook isDetailed))
          (toolResult (jsTrim response), [call])
  | some "list_chapters" =>
      if args.book_id.getD "" = "" then
        (toolError "list_chapters action requires book_id", [])
      else
        let bookId := jsToUpper (args.book_id.getD "")
        let call := ProviderCall.getChapters bookId
        match makeRequestResult (w.chaptersResp bookId) with
        | .error e => (toolError ("Error: " ++ e), [call])
        | .ok none => (toolResult ("No chapters found for book: " ++ bookId), [call])
        | .ok (some chapters) =>
            let response := "**Chapters in " ++ bookId ++ ":**\n\n" ++
              concatAll (chapters.map (renderChapter isDetailed))
            (toolResult (jsTrim response), [call])
  | a =>
      (toolError ("Unknown action: " ++ showAction a ++
        ". Use list_books or list_chapters."), [])

/-!
## Protocol dispatcher (`handleMCP`)
-/

/-- The environment bindings of the worker. -/
structure Env where
  BIBLE_API_KEY : Option String
  BIBLE_ID : Option String
  BASE_URL : Option String

/-- The fetch client's configuration, as set by its constructor. -/
structure Client where
  apiKey : String
  bibleId : String
  baseUrl : String

/-- Constructor of `BibleAPIClient`: defaults `bibleId` and `baseUrl`,
throws when the API key is absent or empty. -/
def mkClient (env : Env) : Except String Client :=
  let apiKey := env.BIBLE_API_KEY.getD ""
  let bibleId := jsOrString env.BIBLE_ID "de4e12af7f28f599-02"
  let baseUrl := jsOrString env.BASE_URL "https://api.scripture.api.bible/v1"
  if apiKey = "" then Except.error "BIBLE_API_KEY environment variable is required"
  else Except.ok ⟨apiKey, bibleId, baseUrl⟩

/-- A JSON-RPC request id: null/absent, a number, or a string. -/
inductive RpcId where
  | null
  | num (n : Int)
  | str (s : String)
deriving DecidableEq

/-- The `params` object of a request envelope. -/
structure MCPParams where
  name : Option String := none
  arguments : Option ToolArgs := none

/-- A decoded request envelope. -/
structure MCPBody where
  jsonrpc : Option String := none
  id : RpcId := RpcId.null
  method : Option String := none
  params : Option MCPParams := none

/-- A tool descriptor of the registry, reduced to the identifying fields
(the verbose description and input schema are static strings no claim
inspects). -/
structure ToolDescriptor where
  name : String
  title : String
deriving DecidableEq

/-- The static tool registry served by `tools/list`. -/
def toolRegistry : List ToolDescriptor :=
  [⟨"bible_content", "Bible Content"⟩, ⟨"bible_reference", "Bible Reference"⟩]

/-- A successful method result. -/
inductive MCPResult where
  /-- The static descriptor returned by `initialize`: protocol version,
  the `tools` capability category, and server identity/version. -/
  | initResult (protocolVersion : String) (toolsCapability : Bool)
      (serverName : String) (serverVersion : String)
  | toolsList (tools : List ToolDescriptor)
  | callResult (r : CallToolResult)
deriving DecidableEq

/-- A response envelope: success with a result, or a coded error. -/
inductive MCPResponse where
  | success (id : RpcId) (result : MCPResult)
  | err (id : RpcId) (code : Int) (message : String)
deriving DecidableEq

/-- Function `handleMCP`: the protocol dispatcher.  `none` as the body
models a request whose JSON could not be decoded.  The fetch-client
constructor runs after envelope validation and before method dispatch;
when it throws, the outer catch produces a `-32700` response with a null
id. -/
def handleMCP (env : Env) (body0 : Option MCPBody) (w : World) : MCPResponse :=
  match body0 with
  | none => .err .null (-32700) "Parse error: empty request body"
  | some body =>
      if (body.jsonrpc.getD "") ≠ "" ∧ body.jsonrpc ≠ some "2.0" then
        .err body.id (-32600) "Invalid Request: invalid jsonrpc version"
      else if body.method.getD "" = "" then
        .err body.id (-32600) "Invalid Request: missing method"
      else
        match mkClient env with
        | .error e => .err .null (-32700) ("Parse error: " ++ e)
        | .ok _client =>
            match body.method.getD "" with
            | "initialize" =>
                .success body.id (.initResult "2024-11-05" true "bible-server" "1.0.0")
            | "tools/list" => .success body.id (.toolsList toolRegistry)
            | "tools/call" =>
                match body.params with
                | none => .err body.id (-32602) "Invalid params: missing tool name"
                | some p =>
                    match p.name with
                    | none => .err body.id (-32602) "Invalid params: missing tool name"
                    | some nm =>
                        if jsTrim nm = "" then
                          .err body.id (-32602) "Invalid params: missing tool name"
                        else
                          let toolArgs := p.arguments.getD {}
                          if nm = "bible_content" then
                            .success body.id (.callResult (handleBibleContent toolArgs w).1)
                          else if nm = "bible_reference" then
                            .success body.id (.callResult (handleBibleReference toolArgs w).1)
                          else .err body.id (-32601) ("Unknown tool: " ++ nm)
            | m => .err body.id (-32601) ("Unknown method: " ++ m)

/-!
## Concrete fixtures (worlds, environments, bodies) used by witnesses
-/

/-- A provider world whose every response is ok with an absent data field. -/
def w0 : World where
  booksResp := ⟨true, 200, "OK", none⟩
  chaptersResp := fun _ => ⟨true, 200, "OK", none⟩
  verseResp := fun _ _ => ⟨true, 200, "OK", none⟩
  passageResp := fun _ _ _ => ⟨true, 200, "OK", none⟩
  searchResp := fun _ _ => ⟨true, 200, "OK", none⟩

/-- A provider world whose every response is a 404 failure. -/
def wFail : World where
  booksResp := ⟨false, 404, "Not Found", none⟩
  chaptersResp := fun _ => ⟨false, 404, "Not Found", none⟩
  verseResp := fun _ _ => ⟨false, 404, "Not Found", none⟩
  passageResp := fun _ _ _ => ⟨false, 404, "Not Found", none⟩
  searchResp := fun _ _ => ⟨false, 404, "Not Found", none⟩

/-- Six search hits, more than the concise rendering cap of five. -/
def sampleVerses : List SearchVerse :=
  [⟨"Genesis 1:1", "In the beginning"⟩, ⟨"John 3:16", "For God so loved"⟩,
   ⟨"Psalm 23:1", "The Lord is my shepherd"⟩, ⟨"Romans 8:28", "All things work"⟩,
   ⟨"John 1:1", "In the beginning was the Word"⟩, ⟨"Exodus 20:1", "And God spake"⟩]

/-- A provider world whose search endpoint returns the six sample hits. -/
def wSearch : World where
  booksResp := ⟨true, 200, "OK", none⟩
  chaptersResp := fun _ => ⟨true, 200, "OK", none⟩
  verseResp := fun _ _ => ⟨true, 200, "OK", none⟩
  passageResp := fun _ _ _ => ⟨true, 200, "OK", none⟩
  searchResp := fun _ _ => ⟨true, 200, "OK", some ⟨some sampleVerses, 6⟩⟩

/-- A provider world whose chapter-list endpoint returns Genesis-like data
(an intro marker and chapters 1 and 2). -/
def wChapters : World where
  booksResp := ⟨true, 200, "OK", none⟩
  chaptersResp := fun _ =>
    ⟨true, 200, "OK", some [⟨"GEN.intro", "intro", "Genesis intro"⟩,
      ⟨"GEN.1", "1", "Genesis 1"⟩, ⟨"GEN.2", "2", "Genesis 2"⟩]⟩
  verseResp := fun _ _ => ⟨true, 200, "OK", none⟩
  passageResp := fun _ _ _ => ⟨true, 200, "OK", none⟩
  searchResp := fun _ _ => ⟨true, 200, "OK", none⟩

/-- An environment with the API key set. -/
def envKey : Env := ⟨some "k", none, none⟩

/-- An environment without the API key. -/
def envNoKey : Env := ⟨none, none, none⟩

/-- An initialize request envelope with a numeric id. -/
def initBody : MCPBody :=
  { jsonrpc := some "2.0", id := RpcId.num 1, method := some "initialize" }

/-- A tools/list request envelope with a numeric id. -/
def listBody : MCPBody :=
  { jsonrpc := some "2.0", id := RpcId.num 5, method := some "tools/list" }

/-- A tools/call envelope whose tool name is a blank (whitespace-only,
hence non-empty) string. -/
def blankNameBody : MCPBody :=
  { jsonrpc := some "2.0", id := RpcId.num 1, method := some "tools/call",
    params := some { name := some " " } }

/-- Helper: a jsonrpc tag that is absent, empty, or exactly 2.0 does not
trip the version check. -/
theorem not_bad_jsonrpc {j : Option String}
    (h : j.getD "" = "" ∨ j = some "2.0") :
    ¬((j.getD "") ≠ "" ∧ j ≠ some "2.0") := by
  rcases h with h | h <;> simp [h]

/-!
## Claims
-/

/-- C2: flattening is an order-preserving homomorphism.  The flattening of
a composite node (one whose type is not the text tag and which has an
items list) is the concatenation, in order, of its children's flattenings;
a text leaf contributes its literal text; and flattening any tree equals
the concatenation of its left-to-right leaf texts. -/
theorem claim_C2_flatten_homomorphism :
    (∀ (type0 text0 : Option String) (l : List JItem), type0 ≠ some "text" →
      extractText (JItem.obj type0 text0 (some l)) = concatAll (l.map extractText))
  ∧ (∀ (s : String) (items0 : Option (List JItem)),
      extractText (JItem.obj (some "text") (some s) items0) = s)
  ∧ (∀ t : JItem, extractText t = concatAll (leafTexts t)) := by
  refine ⟨?_, ?_, extractText_eq_concat_leafTexts⟩
  · intro type0 text0 l h
    have h1 : extractText (JItem.obj type0 text0 (some l)) = extractTextList l := by
      simp [extractText, h]
    rw [h1]
    exact extractTextList_eq_concat_map l
  · intro s items0
    simp [extractText]

/-- Witness for C2 at concrete trees. -/
theorem claim_C2_witness :
    extractText (JItem.obj none none
        (some [JItem.obj (some "text") (some "a") none,
               JItem.obj (some "text") (some "b") none])) =
      concatAll ([JItem.obj (some "text") (some "a") none,
                  JItem.obj (some "text") (some "b") none].map extractText) ∧
    extractText (JItem.obj (some "text") (some "xyz") none) = "xyz" :=
  ⟨claim_C2_flatten_homomorphism.1 none none _ (by decide),
   claim_C2_flatten_homomorphism.2.1 "xyz" none⟩

/-- C8: `truncateText` leaves a text of at most 100 characters unchanged
and otherwise replaces it by its first 100 characters (trimmed, hence
still at most 100 characters) with an ellipsis appended; the detailed
search rendering uses the verse text untruncated while the concise one
applies `truncateText`. -/
theorem claim_C8_truncation :
    (∀ t : String, t.length ≤ MAX_VERSE_LENGTH_CONCISE →
      truncateText t MAX_VERSE_LENGTH_CONCISE = t)
  ∧ (∀ t : String, MAX_VERSE_LENGTH_CONCISE < t.length →
      truncateText t MAX_VERSE_LENGTH_CONCISE = jsTrim (jsSlice t 100) ++ "..." ∧
      (jsTrim (jsSlice t 100)).length ≤ 100)
  ∧ (∀ v : SearchVerse, renderSearchVerse true v =
      "**" ++ v.reference ++ "**\n" ++ v.text ++ "\n\n")
  ∧ (∀ v : SearchVerse, renderSearchVerse false v =
      "**" ++ v.reference ++ "**\n" ++
        truncateText v.text MAX_VERSE_LENGTH_CONCISE ++ "\n\n") := by
  refine ⟨?_, ?_, ?_, ?_⟩
  · intro t h
    simp [truncateText, h]
  · intro t h
    refine ⟨?_, le_trans (jsTrim_length_le _) (jsSlice_length_le t 100)⟩
    have h2 : ¬(t.length ≤ 100) := by
      simp only [MAX_VERSE_LENGTH_CONCISE] at h
      omega
    simp [truncateText, MAX_VERSE_LENGTH_CONCISE, h2]
  · intro v
    simp [renderSearchVerse]
  · intro v
    simp [renderSearchVerse]

/-- Witness for C8: a 3-character text is unchanged; a 101-character text
is truncated with an ellipsis. -/
theorem claim_C8_truncation_witness :
    truncateText "abc" MAX_VERSE_LENGTH_CONCISE = "abc" ∧
    truncateText (String.mk (List.replicate 101 'x')) MAX_VERSE_LENGTH_CONCISE =
      jsTrim (jsSlice (String.mk (List.replicate 101 'x')) 100) ++ "..." :=
  ⟨claim_C8_truncation.1 "abc" (by decide),
   (claim_C8_truncation.2.1 (String.mk (List.replicate 101 'x')) (by decide)).1⟩

/-- C9 (code bug): contrary to the claim, a node that is itself a raw
array of nodes contributes the EMPTY string, not the concatenation of its
elements' flattenings: an array passes the JS typeof-object test, has no
type or items property, and falls through to the default, leaving the
`Array.isArray` branch dead.  At the failing input, the array wrapping a
text leaf flattens to the empty string while the concatenation of its
elements' flattenings is the leaf text; the defensive default itself
(unmatched shapes contribute an empty string) does hold. -/
theorem claim_C9_array_branch_unreachable :
    extractText (JItem.arr [JItem.obj (some "text") (some "a") none]) = "" ∧
    extractTextList [JItem.obj (some "text") (some "a") none] = "a" ∧
    extractText JItem.prim = "" := by
  refine ⟨by simp [extractText], ?_, by simp [extractText]⟩
  simp [extractTextList, extractText]

/-- C3: the `limit` argument of the `search` action is silently clamped
into the range 1..200 (0 clamps to 1, 500 clamps to 200, absence defaults
to 10), and the clamped value is exactly the limit passed to the provider
search call, whatever the provider responds. -/
theorem claim_C3_limit_clamped :
    clampLimit (some 0) = 1 ∧ clampLimit (some 500) = 200 ∧ clampLimit none = 10
  ∧ (∀ l : Int, 1 ≤ clampLimit (some l) ∧ clampLimit (some l) ≤ 200)
  ∧ (∀ (w : World) (q : String) (lim : Option Int) (rf : Option String), q ≠ "" →
      (handleBibleContent
        { action := some "search", query := some q, limit := lim,
          response_format := rf } w).2 = [ProviderCall.search q (clampLimit lim)]) := by
  refine ⟨by decide, by decide, by decide, ?_, ?_⟩
  · intro l
    unfold clampLimit
    exact ⟨le_min (le_max_right _ _) (by norm_num), min_le_right _ _⟩
  · intro w q lim rf hq
    cases hmr : makeRequestResult (w.searchResp q (clampLimit lim)) with
    | error e => simp [handleBibleContent, hq, hmr]
    | ok d =>
        cases d with
        | none => simp [handleBibleContent, hq, hmr]
        | some sd =>
            cases hv : sd.verses with
            | none => simp [handleBibleContent, hq, hmr, hv]
            | some verses => simp [handleBibleContent, hq, hmr, hv]

/-- Witness for C3 at a concrete call with limit 0. -/
theorem claim_C3_limit_clamped_witness :
    (handleBibleContent
        { action := some "search", query := some "love", limit := some 0 }
        w0).2 = [ProviderCall.search "love" (clampLimit (some 0))] ∧
    clampLimit (some 0) = 1 :=
  ⟨claim_C3_limit_clamped.2.2.2.2 w0 "love" (some 0) none (by decide),
   claim_C3_limit_clamped.1⟩

/-- C6: when the fetched chapter list of the uppercased book contains no
chapter whose number (as a string) equals the requested number's string
form, the `chapter` action returns a non-error not-found message naming
book and chapter, and the trace holds exactly the one chapter-list fetch:
no second (content) fetch is issued.  The absent-data case
(`data || []`) yields the same empty scan. -/
theorem claim_C6_chapter_not_found_no_second_fetch
    (w : World) (b : String) (n : Int) (lim : Option Int) (rf : Option String)
    (hb : b ≠ "")
    (hok : (w.chaptersResp (jsToUpper b)).ok = true)
    (hfind : ((w.chaptersResp (jsToUpper b)).body.getD []).find?
      (fun ch => ch.number = toString n) = none) :
    handleBibleContent
        { action := some "chapter", book_id := some b, chapter := some n,
          limit := lim, response_format := rf } w =
      (toolResult ("Chapter " ++ toString n ++ " not found in book " ++ jsToUpper b),
        [ProviderCall.getChapters (jsToUpper b)]) := by
  have hmr : makeRequestResult (w.chaptersResp (jsToUpper b)) =
      Except.ok (w.chaptersResp (jsToUpper b)).body := by
    simp [makeRequestResult, hok]
  simp [handleBibleContent, hb, hmr, hfind]

/-- Witness for C6: chapter 99 of GEN against the sample chapter list. -/
theorem claim_C6_chapter_not_found_witness :
    handleBibleContent
        { action := some "chapter", book_id := some "gen", chapter := some 99 }
        wChapters =
      (toolResult ("Chapter " ++ toString (99 : Int) ++ " not found in book " ++
        jsToUpper "gen"), [ProviderCall.getChapters (jsToUpper "gen")]) :=
  claim_C6_chapter_not_found_no_second_fetch wChapters "gen" 99 none none
    (by decide) (by decide) (by decide)

/-- C4 counterexample: with an absent BIBLE_API_KEY, the dispatcher
answers an initialize request (with an acceptable protocol-version tag)
with a -32700 error carrying a null id, not the success descriptor — the
claim's "regardless of the environment configuration" fails. -/
theorem claim_C4_counterexample :
    handleMCP envNoKey (some initBody) w0 =
      MCPResponse.err RpcId.null (-32700)
        "Parse error: BIBLE_API_KEY environment variable is required" ∧
    handleMCP envNoKey (some initBody) w0 ≠
      MCPResponse.success initBody.id
        (MCPResult.initResult "2024-11-05" true "bible-server" "1.0.0") := by
  constructor <;> decide

/-- C4 (amended): provided the environment supplies a non-empty
BIBLE_API_KEY — so the fetch-client constructor, which runs before method
dispatch, succeeds — every decoded envelope whose method is the
initialization method with an acceptable protocol-version tag receives a
success response with the static capability descriptor (tools capability
category, server name and version), regardless of the provider world and
the other envelope fields. -/
theorem claim_C4_initialize_static (env : Env) (body : MCPBody) (w : World)
    (hkey : env.BIBLE_API_KEY.getD "" ≠ "")
    (hver : body.jsonrpc.getD "" = "" ∨ body.jsonrpc = some "2.0")
    (hm : body.method = some "initialize") :
    handleMCP env (some body) w =
      MCPResponse.success body.id
        (MCPResult.initResult "2024-11-05" true "bible-server" "1.0.0") := by
  simp only [handleMCP]
  rw [if_neg (not_bad_jsonrpc hver), hm]
  simp [mkClient, hkey]

/-- Witness for C4 (amended) at a keyed environment. -/
theorem claim_C4_initialize_static_witness :
    handleMCP envKey (some initBody) w0 =
      MCPResponse.success initBody.id
        (MCPResult.initResult "2024-11-05" true "bible-server" "1.0.0") :=
  claim_C4_initialize_static envKey initBody w0 (by decide) (Or.inr rfl) rfl

/-- C10: when BIBLE_API_KEY is absent or empty, every envelope that passes
envelope validation — whatever its method, including the initialization
and tool-listing methods — is answered with a -32700 error whose message
begins with "Parse error", and the response id is null regardless of the
request id: the fetch-client constructor throws before method dispatch
and the outer catch discards the envelope's id. -/
theorem claim_C10_missing_key_parse_error (env : Env) (body : MCPBody) (w : World)
    (hkey : env.BIBLE_API_KEY.getD "" = "")
    (hver : body.jsonrpc.getD "" = "" ∨ body.jsonrpc = some "2.0")
    (hm : body.method.getD "" ≠ "") :
    handleMCP env (some body) w =
      MCPResponse.err RpcId.null (-32700)
        "Parse error: BIBLE_API_KEY environment variable is required" ∧
    "Parse error: BIBLE_API_KEY environment variable is required" =
      "Parse error" ++ ": BIBLE_API_KEY environment variable is required" := by
  constructor
  · simp only [handleMCP]
    rw [if_neg (not_bad_jsonrpc hver), if_neg hm]
    simp [mkClient, hkey]
  · rfl

/-- Witness for C10: a tools/list request with id 5 is answered with the
parse error under a null id. -/
theorem claim_C10_missing_key_witness :
    handleMCP envNoKey (some listBody) w0 =
      MCPResponse.err RpcId.null (-32700)
        "Parse error: BIBLE_API_KEY environment variable is required" ∧
    RpcId.null ≠ listBody.id :=
  ⟨(claim_C10_missing_key_parse_error envNoKey listBody w0 rfl
      (Or.inr rfl) (by decide)).1, by decide⟩

/-- Helper for C5: a recognized tool with an unrecognized action value
falls to the handler's default arm. -/
theorem handleBibleContent_unknown_action (args : ToolArgs) (w : World) (a : String)
    (ha : args.action = some a)
    (h1 : a ≠ "search") (h2 : a ≠ "verse") (h3 : a ≠ "passage") (h4 : a ≠ "chapter") :
    handleBibleContent args w =
      (toolError ("Unknown action: " ++ a ++
        ". Use search, verse, passage, or chapter."), []) := by
  simp [handleBibleContent, ha, h1, h2, h3, h4, showAction]

/-- C5 counterexample: with params.name the blank string (non-empty, not a
tool name), a tools/call is answered with InvalidParams -32602, not the
MethodNotFound -32601 the claim requires for every non-empty unrecognized
name, because the dispatcher tests the trimmed name for truthiness. -/
theorem claim_C5_counterexample :
    handleMCP envKey (some blankNameBody) w0 =
      MCPResponse.err (RpcId.num 1) (-32602) "Invalid params: missing tool name" ∧
    handleMCP envKey (some blankNameBody) w0 ≠
      MCPResponse.err (RpcId.num 1) (-32601) ("Unknown tool: " ++ " ") := by
  constructor <;> decide

/-- C5 (amended): for every tools/call whose params.name has non-blank
content (non-empty after trimming) and equals neither declared tool name,
the dispatcher answers with the protocol-level MethodNotFound error
-32601 naming the tool (a present but whitespace-only name instead yields
InvalidParams -32602); whereas a recognized tool with an unrecognized
action value is answered with a success envelope whose CallToolResult has
isError set and names the valid actions; an error envelope and a success
envelope are never equal. -/
theorem claim_C5_unknown_tool_vs_unknown_action :
    (∀ (env : Env) (w : World) (idv : RpcId) (jr : Option String)
       (nm : String) (argsv : Option ToolArgs),
      env.BIBLE_API_KEY.getD "" ≠ "" →
      (jr.getD "" = "" ∨ jr = some "2.0") →
      jsTrim nm ≠ "" →
      nm ≠ "bible_content" → nm ≠ "bible_reference" →
      handleMCP env (some
        { jsonrpc := jr, id := idv, method := some "tools/call",
          params := some { name := some nm, arguments := argsv } }) w =
        MCPResponse.err idv (-32601) ("Unknown tool: " ++ nm))
  ∧ (∀ (env : Env) (w : World) (idv : RpcId) (jr : Option String)
       (a : String) (args2 : ToolArgs),
      env.BIBLE_API_KEY.getD "" ≠ "" →
      (jr.getD "" = "" ∨ jr = some "2.0") →
      args2.action = some a →
      a ≠ "search" → a ≠ "verse" → a ≠ "passage" → a ≠ "chapter" →
      handleMCP env (some
        { jsonrpc := jr, id := idv, method := some "tools/call",
          params := some
            { name := some "bible_content", arguments := some args2 } }) w =
        MCPResponse.success idv (MCPResult.callResult (toolError
          ("Unknown action: " ++ a ++ ". Use search, verse, passage, or chapter."))))
  ∧ (∀ (i1 i2 : RpcId) (c : Int) (m : String) (r : MCPResult),
      MCPResponse.err i1 c m ≠ MCPResponse.success i2 r) := by
  refine ⟨?_, ?_, ?_⟩
  · intro env w idv jr nm argsv hkey hver hnm hn1 hn2
    simp only [handleMCP]
    rw [if_neg (not_bad_jsonrpc hver)]
    simp [mkClient, hkey, hnm, hn1, hn2]
  · intro env w idv jr a args2 hkey hver ha h1 h2 h3 h4
    simp only [handleMCP]
    rw [if_neg (not_bad_jsonrpc hver)]
    simp [mkClient, hkey, handleBibleContent_unknown_action args2 w a ha h1 h2 h3 h4]
    decide
  · intro i1 i2 c m r
    simp

/-- Witness for C5 (amended): the tool name nope and the action value
frobnicate. -/
theorem claim_C5_witness :
    handleMCP envKey (some
      { jsonrpc := some "2.0", id := RpcId.num 1, method := some "tools/call",
        params := some { name := some "nope" } }) w0 =
      MCPResponse.err (RpcId.num 1) (-32601) ("Unknown tool: " ++ "nope") ∧
    handleMCP envKey (some
      { jsonrpc := some "2.0", id := RpcId.num 1, method := some "tools/call",
        params := some
          { name := some "bible_content",
            arguments := some { action := some "frobnicate" } } }) w0 =
      MCPResponse.success (RpcId.num 1) (MCPResult.callResult (toolError
        ("Unknown action: " ++ "frobnicate" ++
          ". Use search, verse, passage, or chapter."))) :=
  ⟨claim_C5_unknown_tool_vs_unknown_action.1 envKey w0 (RpcId.num 1)
      (some "2.0") "nope" none (by decide) (Or.inr rfl) (by decide)
      (by decide) (by decide),
   claim_C5_unknown_tool_vs_unknown_action.2.1 envKey w0 (RpcId.num 1)
      (some "2.0") "frobnicate" { action := some "frobnicate" } (by decide)
      (Or.inr rfl) rfl (by decide) (by decide) (by decide) (by decide)⟩

/-- Helper for C7: the search success path renders the prefix of the
verse list selected by `searchMaxResults`. -/
theorem handleBibleContent_search_ok (w : World) (q : String) (lim : Option Int)
    (rf : Option String) (d : SearchData) (verses : List SearchVerse)
    (hq : q ≠ "")
    (hok : (w.searchResp q (clampLimit lim)).ok = true)
    (hbody : (w.searchResp q (clampLimit lim)).body = some d)
    (hv : d.verses = some verses) :
    (handleBibleContent
      { action := some "search", query := some q, limit := lim,
        response_format := rf } w).1 =
      toolResult (jsTrim (searchHeader (fmtDetailed rf) d.total q verses.length
          (searchMaxResults (fmtDetailed rf) verses.length) ++
        concatAll ((verses.take (searchMaxResults (fmtDetailed rf) verses.length)).map
          (renderSearchVerse (fmtDetailed rf))))) := by
  have hmr : makeRequestResult (w.searchResp q (clampLimit lim)) =
      Except.ok (some d) := by
    simp [makeRequestResult, hok, hbody]
  simp [handleBibleContent, hq, hmr, hv]

/-- C7: a concise search renders exactly the prefix of the provider's
verse list of length min(5, count) — never more than five results even
when the provider returns more — while a detailed search renders the
whole provider-returned list. -/
theorem claim_C7_search_result_counts :
    (∀ (w : World) (q : String) (lim : Option Int) (rf : Option String)
       (d : SearchData) (verses : List SearchVerse),
      q ≠ "" →
      fmtDetailed rf = false →
      (w.searchResp q (clampLimit lim)).ok = true →
      (w.searchResp q (clampLimit lim)).body = some d →
      d.verses = some verses →
      (handleBibleContent
        { action := some "search", query := some q, limit := lim,
          response_format := rf } w).1 =
        toolResult (jsTrim (searchHeader false d.total q verses.length
            (min 5 verses.length) ++
          concatAll ((verses.take (min 5 verses.length)).map
            (renderSearchVerse false)))) ∧
      (verses.take (min 5 verses.length)).length = min 5 verses.length ∧
      min 5 verses.length ≤ 5)
  ∧ (∀ (w : World) (q : String) (lim : Option Int) (rf : Option String)
       (d : SearchData) (verses : List SearchVerse),
      q ≠ "" →
      fmtDetailed rf = true →
      (w.searchResp q (clampLimit lim)).ok = true →
      (w.searchResp q (clampLimit lim)).body = some d →
      d.verses = some verses →
      (handleBibleContent
        { action := some "search", query := some q, limit := lim,
          response_format := rf } w).1 =
        toolResult (jsTrim (searchHeader true d.total q verses.length
            verses.length ++
          concatAll (verses.map (renderSearchVerse true))))) := by
  constructor
  · intro w q lim rf d verses hq hdet hok hbody hv
    have h := handleBibleContent_search_ok w q lim rf d verses hq hok hbody hv
    rw [hdet] at h
    simp only [searchMaxResults, if_false, Bool.false_eq_true] at h
    refine ⟨h, ?_, ?_⟩
    · rw [List.length_take]
      omega
    · omega
  · intro w q lim rf d verses hq hdet hok hbody hv
    have h := handleBibleContent_search_ok w q lim rf d verses hq hok hbody hv
    rw [hdet] at h
    simp only [searchMaxResults, if_true] at h
    rw [List.take_length] at h
    exact h

/-- Witness for C7: six provider hits render as the five-element prefix
when concise and all six when detailed. -/
theorem claim_C7_search_result_counts_witness :
    (handleBibleContent
      { action := some "search", query := some "love" } wSearch).1 =
      toolResult (jsTrim (searchHeader false 6 "love" sampleVerses.length
          (min 5 sampleVerses.length) ++
        concatAll ((sampleVerses.take (min 5 sampleVerses.length)).map
          (renderSearchVerse false)))) ∧
    (handleBibleContent
      { action := some "search", query := some "love",
        response_format := some "detailed" } wSearch).1 =
      toolResult (jsTrim (searchHeader true 6 "love" sampleVerses.length
          sampleVerses.length ++
        concatAll (sampleVerses.map (renderSearchVerse true)))) :=
  ⟨(claim_C7_search_result_counts.1 wSearch "love" none none
      ⟨some sampleVerses, 6⟩ sampleVerses (by decide) rfl rfl rfl rfl).1,
   claim_C7_search_result_counts.2 wSearch "love" none (some "detailed")
      ⟨some sampleVerses, 6⟩ sampleVerses (by decide) rfl rfl rfl rfl⟩

/-- C1: for every content-tool action, a provider-communication failure
(non-ok HTTP status, whose raised message carries the status code and
reason phrase) is caught and surfaced as a tool-level error result
(isError set), while an ok response lacking the requested data is a
normal non-error result with an explanatory message; toolError and
toolResult differ on the isError flag, so the outcomes are never
conflated. -/
theorem claim_C1_provider_failure_vs_not_found :
    (∀ (w : World) (q : String) (lim : Option Int) (rf : Option String),
      q ≠ "" →
      (w.searchResp q (clampLimit lim)).ok = false →
      (handleBibleContent
        { action := some "search", query := some q, limit := lim,
          response_format := rf } w).1 =
        toolError ("Error: " ++ bibleAPIErrorMsg
          (w.searchResp q (clampLimit lim)).status
          (w.searchResp q (clampLimit lim)).statusText))
  ∧ (∀ (w : World) (q : String) (lim : Option Int) (rf : Option String),
      q ≠ "" →
      (w.searchResp q (clampLimit lim)).ok = true →
      ((w.searchResp q (clampLimit lim)).body.bind SearchData.verses) = none →
      (handleBibleContent
        { action := some "search", query := some q, limit := lim,
          response_format := rf } w).1 =
        toolResult ("No verses found for query: " ++ sq ++ q ++ sq))
  ∧ (∀ (w : World) (vid : String) (rf : Option String),
      vid ≠ "" →
      (w.verseResp vid (toString (fmtDetailed rf))).ok = false →
      (handleBibleContent
        { action := some "verse", verse_id := some vid,
          response_format := rf } w).1 =
        toolError ("Error: " ++ bibleAPIErrorMsg
          (w.verseResp vid (toString (fmtDetailed rf))).status
          (w.verseResp vid (toString (fmtDetailed rf))).statusText))
  ∧ (∀ (w : World) (vid : String) (rf : Option String),
      vid ≠ "" →
      (w.verseResp vid (toString (fmtDetailed rf))).ok = true →
      (w.verseResp vid (toString (fmtDetailed rf))).body = none →
      (handleBibleContent
        { action := some "verse", verse_id := some vid,
          response_format := rf } w).1 =
        toolResult ("Verse not found: " ++ vid))
  ∧ (∀ (w : World) (pid : String) (rf : Option String),
      pid ≠ "" →
      (w.passageResp pid (toString (fmtDetailed rf))
        (contentTypeFor (fmtDetailed rf))).ok = false →
      (handleBibleContent
        { action := some "passage", passage_id := some pid,
          response_format := rf } w).1 =
        toolError ("Error: " ++ bibleAPIErrorMsg
          (w.passageResp pid (toString (fmtDetailed rf))
            (contentTypeFor (fmtDetailed rf))).status
          (w.passageResp pid (toString (fmtDetailed rf))
            (contentTypeFor (fmtDetailed rf))).statusText))
  ∧ (∀ (w : World) (pid : String) (rf : Option String),
      pid ≠ "" →
      (w.passageResp pid (toString (fmtDetailed rf))
        (contentTypeFor (fmtDetailed rf))).ok = true →
      (w.passageResp pid (toString (fmtDetailed rf))
        (contentTypeFor (fmtDetailed rf))).body = none →
      (handleBibleContent
        { action := some "passage", passage_id := some pid,
          response_format := rf } w).1 =
        toolResult ("Passage not found: " ++ pid))
  ∧ (∀ (w : World) (b : String) (n : Int) (rf : Option String),
      b ≠ "" →
      (w.chaptersResp (jsToUpper b)).ok = false →
      (handleBibleContent
        { action := some "chapter", book_id := some b, chapter := some n,
          response_format := rf } w).1 =
        toolError ("Error: " ++ bibleAPIErrorMsg
          (w.chaptersResp (jsToUpper b)).status
          (w.chaptersResp (jsToUpper b)).statusText))
  ∧ (∀ (w : World) (b : String) (n : Int) (rf : Option String) (ch : ChapterInfo),
      b ≠ "" →
      (w.chaptersResp (jsToUpper b)).ok = true →
      ((w.chaptersResp (jsToUpper b)).body.getD []).find?
        (fun c => c.number = toString n) = some ch →
      (w.passageResp ch.id (toString (fmtDetailed rf))
        (contentTypeFor (fmtDetailed rf))).ok = false →
      (handleBibleContent
        { action := some "chapter", book_id := some b, chapter := some n,
          response_format := rf } w).1 =
        toolError ("Error: " ++ bibleAPIErrorMsg
          (w.passageResp ch.id (toString (fmtDetailed rf))
            (contentTypeFor (fmtDetailed rf))).status
          (w.passageResp ch.id (toString (fmtDetailed rf))
            (contentTypeFor (fmtDetailed rf))).statusText))
  ∧ (∀ (w : World) (b : String) (n : Int) (rf : Option String) (ch : ChapterInfo),
      b ≠ "" →
      (w.chaptersResp (jsToUpper b)).ok = true →
      ((w.chaptersResp (jsToUpper b)).body.getD []).find?
        (fun c => c.number = toString n) = some ch →
      (w.passageResp ch.id (toString (fmtDetailed rf))
        (contentTypeFor (fmtDetailed rf))).ok = true →
      (w.passageResp ch.id (toString (fmtDetailed rf))
        (contentTypeFor (fmtDetailed rf))).body = none →
      (handleBibleContent
        { action := some "chapter", book_id := some b, chapter := some n,
          response_format := rf } w).1 =
        toolResult ("Chapter content not found: " ++ jsToUpper b ++ " " ++
          toString n))
  ∧ (∀ s : String, (toolError s).isError = some true ∧
      (toolResult s).isError = none) := by
  refine ⟨?_, ?_, ?_, ?_, ?_, ?_, ?_, ?_, ?_, ?_⟩
  · intro w q lim rf hq hok
    have hmr : makeRequestResult (w.searchResp q (clampLimit lim)) =
        Except.error (bibleAPIErrorMsg (w.searchResp q (clampLimit lim)).status
          (w.searchResp q (clampLimit lim)).statusText) := by
      simp [makeRequestResult, hok]
    simp [handleBibleContent, hq, hmr]
  · intro w q lim rf hq hok hnv
    have hmr : makeRequestResult (w.searchResp q (clampLimit lim)) =
        Except.ok (w.searchResp q (clampLimit lim)).body := by
      simp [makeRequestResult, hok]
    cases hb : (w.searchResp q (clampLimit lim)).body with
    | none => simp [handleBibleContent, hq, hmr, hb]
    | some d =>
        rw [hb] at hnv
        simp only [Option.some_bind] at hnv
        simp [handleBibleContent, hq, hmr, hb, hnv]
  · intro w vid rf hvid hok
    have hmr : makeRequestResult (w.verseResp vid (toString (fmtDetailed rf))) =
        Except.error (bibleAPIErrorMsg
          (w.verseResp vid (toString (fmtDetailed rf))).status
          (w.verseResp vid (toString (fmtDetailed rf))).statusText) := by
      simp [makeRequestResult, hok]
    simp [handleBibleContent, hvid, hmr]
  · intro w vid rf hvid hok hnd
    have hmr : makeRequestResult (w.verseResp vid (toString (fmtDetailed rf))) =
        Except.ok none := by
      simp [makeRequestResult, hok, hnd]
    simp [handleBibleContent, hvid, hmr]
  · intro w pid rf hpid hok
    have hmr : makeRequestResult (w.passageResp pid (toString (fmtDetailed rf))
        (contentTypeFor (fmtDetailed rf))) =
        Except.error (bibleAPIErrorMsg
          (w.passageResp pid (toString (fmtDetailed rf))
            (contentTypeFor (fmtDetailed rf))).status
          (w.passageResp pid (toString (fmtDetailed rf))
            (contentTypeFor (fmtDetailed rf))).statusText) := by
      simp [makeRequestResult, hok]
    simp [handleBibleContent, hpid, hmr]
  · intro w pid rf hpid hok hnd
    have hmr : makeRequestResult (w.passageResp pid (toString (fmtDetailed rf))
        (contentTypeFor (fmtDetailed rf))) = Except.ok none := by
      simp [makeRequestResult, hok, hnd]
    simp [handleBibleContent, hpid, hmr]
  · intro w b n rf hb hok
    have hmr : makeRequestResult (w.chaptersResp (jsToUpper b)) =
        Except.error (bibleAPIErrorMsg (w.chaptersResp (jsToUpper b)).status
          (w.chaptersResp (jsToUpper b)).statusText) := by
      simp [makeRequestResult, hok]
    simp [handleBibleContent, hb, hmr]
  · intro w b n rf ch hb hok hfind hok2
    have hmr : makeRequestResult (w.chaptersResp (jsToUpper b)) =
        Except.ok (w.chaptersResp (jsToUpper b)).body := by
      simp [makeRequestResult, hok]
    have hmr2 : makeRequestResult (w.passageResp ch.id
        (toString (fmtDetailed rf)) (contentTypeFor (fmtDetailed rf))) =
        Except.error (bibleAPIErrorMsg
          (w.passageResp ch.id (toString (fmtDetailed rf))
            (contentTypeFor (fmtDetailed rf))).status
          (w.passageResp ch.id (toString (fmtDetailed rf))
            (contentTypeFor (fmtDetailed rf))).statusText) := by
      simp [makeRequestResult, hok2]
    simp [handleBibleContent, hb, hmr, hfind, hmr2]
  · intro w b n rf ch hb hok hfind hok2 hnd
    have hmr : makeRequestResult (w.chaptersResp (jsToUpper b)) =
        Except.ok (w.chaptersResp (jsToUpper b)).body := by
      simp [makeRequestResult, hok]
    have hmr2 : makeRequestResult (w.passageResp ch.id
        (toString (fmtDetailed rf)) (contentTypeFor (fmtDetailed rf))) =
        Except.ok none := by
      simp [makeRequestResult, hok2, hnd]
    simp [handleBibleContent, hb, hmr, hfind, hmr2]
  · intro s
    exact ⟨rfl, rfl⟩

/-- Witness for C1: a failing provider yields an isError result with the
status line in the message; an ok provider without data yields a plain
not-found message. -/
theorem claim_C1_witness :
    (handleBibleContent
      { action := some "search", query := some "love" } wFail).1 =
      toolError ("Error: " ++ bibleAPIErrorMsg
        (wFail.searchResp "love" (clampLimit none)).status
        (wFail.searchResp "love" (clampLimit none)).statusText) ∧
    (handleBibleContent
      { action := some "search", query := some "zzz" } w0).1 =
      toolResult ("No verses found for query: " ++ sq ++ "zzz" ++ sq) :=
  ⟨claim_C1_provider_failure_vs_not_found.1 wFail "love" none none
      (by decide) rfl,
   (claim_C1_provider_failure_vs_not_found.2.1) w0 "zzz" none none
      (by decide) rfl rfl⟩

end BibleMCP
